import Mathlib

/-!
Shallow embedding of the e-commerce data model and its operations
(`app/models/product.py`, `app/models/cart.py`, `app/models/order.py`,
`app/models/user.py`, and the admin `delete_category` route in
`app/admin/routes.py`), followed by theorems settling the frozen claims.

Modelling conventions:
* Monetary values (`Numeric(10,2)` columns, Python floats) are `ℚ`.
* Integer columns are `ℤ` (quantities, stock) or `Nat` (identifiers).
* `datetime.utcnow()` is threaded in as an explicit `now : Nat` parameter
  (and as a rendered string `ts` where the code interpolates the time into
  text); database commits are no-ops in the model.
* Methods that mutate `self` and may `raise` become state-passing
  functions returning the new state paired with an optional error
  (or an `Except`): a Python `raise` occurs before any field assignment
  in every modelled method, so the error branch returns the state
  unchanged.
* Only the fields read or written by the verified operations are
  modelled; omitted columns (descriptions, slugs, SEO fields, ...) are
  never consulted by these operations.
-/

namespace ECommerce

/-- Python `str.strip()` whitespace predicate (space, tab, newline,
carriage return, vertical tab, form feed). -/
def pyIsSpace (c : Char) : Bool :=
  c = ' ' || c = '\t' || c = '\n' || c = '\r' || c = '\x0b' || c = '\x0c'

/-- Python `str.strip()`: remove leading and trailing whitespace. -/
def pyStrip (s : String) : String :=
  String.mk (((s.data.dropWhile pyIsSpace).reverse.dropWhile pyIsSpace).reverse)

/-- Truthiness of a Python optional string (`if notes:`): `None` and the
empty string are falsy. -/
def pyTruthyStr : Option String → Bool
  | none => false
  | some s => !(s == "")

/-- Truthiness of a Python optional numeric value (`if self.sale_price:`):
`None` and zero are falsy. -/
def pyTruthyNum : Option ℚ → Bool
  | none => false
  | some q => !(q == 0)

/-- `Product` (`app/models/product.py`), restricted to the columns the
verified operations read or write. -/
structure Product where
  id : Nat
  price : ℚ
  sale_price : Option ℚ
  stock_quantity : ℤ
  is_active : Bool
  updated_at : Nat
deriving Repr, DecidableEq

/-- `Product.get_display_price`:
`return float(self.sale_price) if self.sale_price else float(self.price)`.
The conditional tests Python truthiness of `sale_price`: `None` and a
zero sale price both fall through to the base price. -/
def Product.get_display_price (p : Product) : ℚ :=
  if pyTruthyNum p.sale_price then (p.sale_price.getD 0) else p.price

/-- `Product.get_effective_price`: documented alias of `get_display_price`. -/
def Product.get_effective_price (p : Product) : ℚ :=
  p.get_display_price

/-- `Product.reserve_stock(quantity)`: rejects non-positive quantities and
requests above the available stock, otherwise decrements the stock.
Returns the (possibly unchanged) product and the error message, if any. -/
def Product.reserve_stock (p : Product) (quantity : ℤ) (now : Nat) :
    Product × Option String :=
  if quantity ≤ 0 then
    (p, some "Quantity must be positive")
  else if p.stock_quantity < quantity then
    (p, some ("Insufficient stock. Available: " ++ toString p.stock_quantity ++
      ", Requested: " ++ toString quantity))
  else
    ({ p with stock_quantity := p.stock_quantity - quantity, updated_at := now }, none)

/-- `Product.release_stock(quantity)`: rejects non-positive quantities,
otherwise increments the stock. -/
def Product.release_stock (p : Product) (quantity : ℤ) (now : Nat) :
    Product × Option String :=
  if quantity ≤ 0 then
    (p, some "Quantity must be positive")
  else
    ({ p with stock_quantity := p.stock_quantity + quantity, updated_at := now }, none)

/-- `Product.update_stock(new_quantity)`: rejects a negative absolute
quantity, otherwise sets the stock to it. -/
def Product.update_stock (p : Product) (new_quantity : ℤ) (now : Nat) :
    Product × Option String :=
  if new_quantity < 0 then
    (p, some "Stock quantity cannot be negative")
  else
    ({ p with stock_quantity := new_quantity, updated_at := now }, none)

/-- `CartItem` (`app/models/cart.py`), the modelled columns. -/
structure CartItem where
  cart_id : Nat
  product_id : Nat
  quantity : ℤ
  price : ℚ
  updated_at : Nat
deriving Repr, DecidableEq

/-- `CartItem.get_total_price`: `float(self.price) * self.quantity`. -/
def CartItem.get_total_price (it : CartItem) : ℚ :=
  it.price * it.quantity

/-- `Cart` (`app/models/cart.py`): its line items in insertion order. -/
structure Cart where
  id : Nat
  items : List CartItem
  updated_at : Nat
deriving Repr, DecidableEq

/-- `Cart.get_item_by_product`:
`next((item for item in self.items if item.product_id == product_id), None)`,
the first line for the product, if any. -/
def Cart.get_item_by_product (c : Cart) (product_id : Nat) : Option CartItem :=
  c.items.find? (fun it => it.product_id == product_id)

/-- In-place mutation of the first line for a product, as Python's
mutation of the object returned by `get_item_by_product` appears to the
containing list. -/
def updateFirstItem : List CartItem → Nat → (CartItem → CartItem) → List CartItem
  | [], _, _ => []
  | it :: rest, pid, f =>
      if it.product_id == pid then f it :: rest
      else it :: updateFirstItem rest pid f

/-- `db.session.delete(cart_item)` on the object returned by
`get_item_by_product`: removes the first line for the product. -/
def eraseFirstItem : List CartItem → Nat → List CartItem
  | [], _ => []
  | it :: rest, pid =>
      if it.product_id == pid then rest
      else it :: eraseFirstItem rest pid

/-- `Product.query.filter_by(id=product_id, is_active=True).first()`
against the product table `db`. -/
def findActiveProduct (db : List Product) (product_id : Nat) : Option Product :=
  db.find? (fun p => p.id == product_id && p.is_active)

/-- `Product.query.get(product_id)` against the product table `db`. -/
def findProduct (db : List Product) (product_id : Nat) : Option Product :=
  db.find? (fun p => p.id == product_id)

/-- `Cart.add_item(product_id, quantity)`: validates the product exists
and is active, checks the post-add total against current stock, then
either increments the existing line or appends a new line priced at the
product's current effective price. Returns the new cart and the
returned/created `CartItem` (or the raised error). -/
def Cart.add_item (db : List Product) (c : Cart) (product_id : Nat)
    (quantity : ℤ) (now : Nat) : Cart × Except String CartItem :=
  match findActiveProduct db product_id with
  | none => (c, Except.error "Product not found or inactive")
  | some product =>
    let existing := c.get_item_by_product product_id
    let total_quantity := quantity + (match existing with
      | some it => it.quantity
      | none => 0)
    if product.stock_quantity < total_quantity then
      (c, Except.error ("Insufficient stock. Available: " ++
        toString product.stock_quantity))
    else
      match existing with
      | some it =>
        let it2 : CartItem := { it with quantity := it.quantity + quantity, updated_at := now }
        ({ c with
            items := updateFirstItem c.items product_id
              (fun x => { x with quantity := x.quantity + quantity, updated_at := now }),
            updated_at := now },
         Except.ok it2)
      | none =>
        let it2 : CartItem :=
          ⟨c.id, product_id, quantity, product.get_effective_price, now⟩
        ({ c with items := c.items ++ [it2], updated_at := now }, Except.ok it2)

/-- `Cart.remove_item(product_id)`: deletes the line if present (a cart
without such a line is left untouched). -/
def Cart.remove_item (c : Cart) (product_id : Nat) (now : Nat) : Cart :=
  match c.get_item_by_product product_id with
  | some _ => { c with items := eraseFirstItem c.items product_id, updated_at := now }
  | none => c

/-- `Cart.update_item_quantity(product_id, quantity)`: requires the line
to exist; a quantity `≤ 0` removes the line before any stock lookup;
otherwise the product is fetched by id (`Product.query.get`, no active
filter — a missing product makes Python crash on
`product.stock_quantity`, modelled as an error) and the new quantity is
checked against its stock. -/
def Cart.update_item_quantity (db : List Product) (c : Cart) (product_id : Nat)
    (quantity : ℤ) (now : Nat) : Cart × Option String :=
  match c.get_item_by_product product_id with
  | none => (c, some "Item not found in cart")
  | some _ =>
    if quantity ≤ 0 then
      (c.remove_item product_id now, none)
    else
      match findProduct db product_id with
      | none => (c, some "AttributeError: NoneType has no attribute stock_quantity")
      | some product =>
        if product.stock_quantity < quantity then
          (c, some ("Insufficient stock. Available: " ++
            toString product.stock_quantity))
        else
          ({ c with
              items := updateFirstItem c.items product_id
                (fun x => { x with quantity := quantity, updated_at := now }),
              updated_at := now }, none)

/-- `Cart.clear_cart()`: deletes every line. -/
def Cart.clear_cart (c : Cart) (now : Nat) : Cart :=
  { c with items := [], updated_at := now }

/-- The `unique_cart_product` constraint on `cart_items`: at most one
line per product within a cart. -/
def Cart.uniqueProductLines (c : Cart) : Prop :=
  (c.items.map CartItem.product_id).Nodup

instance (c : Cart) : Decidable c.uniqueProductLines := by
  unfold Cart.uniqueProductLines
  infer_instance

/-- `OrderStatus` enumeration (`app/models/order.py`). -/
inductive OrderStatus
  | pending
  | confirmed
  | processing
  | shipped
  | delivered
  | cancelled
  | returned
deriving Repr, DecidableEq

/-- The `.value` of each `OrderStatus` member. -/
def OrderStatus.value : OrderStatus → String
  | .pending => "pending"
  | .confirmed => "confirmed"
  | .processing => "processing"
  | .shipped => "shipped"
  | .delivered => "delivered"
  | .cancelled => "cancelled"
  | .returned => "returned"

/-- `OrderItem` (`app/models/order.py`), the modelled columns. -/
structure OrderItem where
  product_id : Nat
  quantity : ℤ
  price : ℚ
deriving Repr, DecidableEq

/-- `OrderItem.get_total_price`: `float(self.price) * self.quantity`. -/
def OrderItem.get_total_price (it : OrderItem) : ℚ :=
  it.price * it.quantity

/-- `Order` (`app/models/order.py`), the modelled columns. -/
structure Order where
  status : OrderStatus
  notes : Option String
  subtotal_amount : ℚ
  tax_amount : ℚ
  shipping_amount : ℚ
  discount_amount : ℚ
  total_amount : ℚ
  items : List OrderItem
  confirmed_at : Option Nat
  shipped_at : Option Nat
  delivered_at : Option Nat
  updated_at : Nat
deriving Repr, DecidableEq

/-- `Order.calculate_tax(tax_rate=0.08)`: `self.subtotal_amount * tax_rate`. -/
def Order.calculate_tax (o : Order) (tax_rate : ℚ) : ℚ :=
  o.subtotal_amount * tax_rate

/-- `Order.calculate_totals()`: subtotal from the line totals, tax via
`calculate_tax` at the default 8% rate, then
`total = subtotal + tax + shipping - discount`
(`shipping_amount` and `discount_amount` are set separately). -/
def Order.calculate_totals (o : Order) (now : Nat) : Order :=
  let o1 := { o with subtotal_amount := (o.items.map OrderItem.get_total_price).sum }
  let o2 := { o1 with tax_amount := o1.calculate_tax (8 / 100) }
  { o2 with
    total_amount := o2.subtotal_amount + o2.tax_amount +
      o2.shipping_amount - o2.discount_amount,
    updated_at := now }

/-- `Order.update_status(new_status, notes=None)`: sets the status, stamps
the matching milestone timestamp, and — only when the optional note is
truthy (not `None`, not empty) — rewrites `notes` to
`f"\x7bself.notes or ''\x7d\n\x7butcnow\x7d: Status changed from \x7bold\x7d to \x7bnew\x7d. \x7bnotes\x7d".strip()`.
`ts` is the rendered `datetime.utcnow()` of the note line. -/
def Order.update_status (o : Order) (new_status : OrderStatus)
    (note : Option String) (ts : String) (now : Nat) : Order :=
  let old_status := o.status
  let o1 := { o with status := new_status, updated_at := now }
  let o2 :=
    if new_status = OrderStatus.confirmed then { o1 with confirmed_at := some now }
    else if new_status = OrderStatus.shipped then { o1 with shipped_at := some now }
    else if new_status = OrderStatus.delivered then { o1 with delivered_at := some now }
    else o1
  if pyTruthyStr note then
    { o2 with notes := some (pyStrip ((o2.notes.getD "") ++ "\n" ++ ts ++
        ": Status changed from " ++ old_status.value ++ " to " ++
        new_status.value ++ ". " ++ note.getD "")) }
  else o2

/-- `User` (`app/models/user.py`), the modelled columns. -/
structure User where
  id : Nat
  username : String
  email : String
  password_hash : String
  is_active : Bool
  last_login : Option Nat
deriving Repr, DecidableEq

/-- `User.check_password`: `check_password_hash(self.password_hash, password)`,
with the one-way hash verifier `verify` passed in as an abstract function. -/
def User.check_password (verify : String → String → Bool) (u : User)
    (password : String) : Bool :=
  verify u.password_hash password

/-- `User.update_last_login()`: stamps `last_login`. -/
def User.update_last_login (u : User) (now : Nat) : User :=
  { u with last_login := some now }

/-- `User.authenticate(username_or_email, password)`: looks up the first
user whose username or email equals the input, and returns it (after
touching `last_login`) when the password verifies and the account is
active; otherwise returns `None`. -/
def User.authenticate (db : List User) (verify : String → String → Bool)
    (username_or_email password : String) (now : Nat) : Option User :=
  match db.find? (fun u =>
      u.username == username_or_email || u.email == username_or_email) with
  | none => none
  | some user =>
    if user.check_password verify password && user.is_active then
      some (user.update_last_login now)
    else
      none

/-- `Category` (`app/models/product.py`), the modelled columns. -/
structure Category where
  id : Nat
  name : String
deriving Repr, DecidableEq

/-- Outcome of the admin `delete_category` route. -/
inductive DeleteCategoryResult
  | refused
  | deleted
deriving Repr, DecidableEq

/-- Truthiness of `category.products` in `if category.products:`
(`app/admin/routes.py`). `Category.products` is declared
`db.relationship('Product', backref='category', lazy='dynamic')`
(`app/models/product.py` line 40), so the attribute is a query object
(`AppenderQuery`), not a list; it defines neither `__bool__` nor
`__len__`, so Python's default object truthiness applies and the test is
`True` for every contents of the relationship. -/
def dynamicRelationshipTruthy (_products : List Product) : Bool :=
  true

/-- `delete_category(id)` (`app/admin/routes.py`): refuses with a flash
when `if category.products:` holds, otherwise deletes the category. -/
def delete_category (c : Category) (products : List Product) :
    Category × DeleteCategoryResult :=
  if dynamicRelationshipTruthy products then
    (c, DeleteCategoryResult.refused)
  else
    (c, DeleteCategoryResult.deleted)

/-! ### Helper lemmas about the list operations -/

theorem updateFirstItem_map_product_id (l : List CartItem) (pid : Nat)
    (f : CartItem → CartItem) (hf : ∀ x, (f x).product_id = x.product_id) :
    (updateFirstItem l pid f).map CartItem.product_id = l.map CartItem.product_id := by
  induction l with
  | nil => rfl
  | cons a rest ih =>
    by_cases h : a.product_id == pid
    · simp [updateFirstItem, h, hf a]
    · simp [updateFirstItem, h, ih]

theorem updateFirstItem_length (l : List CartItem) (pid : Nat)
    (f : CartItem → CartItem) :
    (updateFirstItem l pid f).length = l.length := by
  induction l with
  | nil => rfl
  | cons a rest ih =>
    by_cases h : a.product_id == pid
    · simp [updateFirstItem, h]
    · simp [updateFirstItem, h, ih]

theorem eraseFirstItem_sublist (l : List CartItem) (pid : Nat) :
    (eraseFirstItem l pid).Sublist l := by
  induction l with
  | nil => simp [eraseFirstItem]
  | cons a rest ih =>
    by_cases h : a.product_id == pid
    · simp only [eraseFirstItem, h, if_pos]
      exact List.sublist_cons_self a rest
    · simpa [eraseFirstItem, h] using ih.cons₂ a

theorem find?_updateFirstItem (l : List CartItem) (pid : Nat)
    (f : CartItem → CartItem) (hf : ∀ x, (f x).product_id = x.product_id)
    (it : CartItem) (h : l.find? (fun x => x.product_id == pid) = some it) :
    (updateFirstItem l pid f).find? (fun x => x.product_id == pid) = some (f it) := by
  induction l with
  | nil => simp at h
  | cons a rest ih =>
    cases hb : (a.product_id == pid) with
    | true =>
      have h2 : it = a := by
        simp [List.find?_cons_of_pos, hb] at h
        exact h.symm
      subst h2
      simp [updateFirstItem, hb, List.find?_cons_of_pos, hf]
    | false =>
      simp only [List.find?_cons_of_neg, hb, Bool.false_eq_true,
        not_false_eq_true] at h
      simp only [updateFirstItem, hb, Bool.false_eq_true, if_false]
      simpa [List.find?_cons_of_neg, hb] using ih h

theorem find?_append_of_none {α : Type} (l₁ l₂ : List α) (p : α → Bool)
    (h : l₁.find? p = none) : (l₁ ++ l₂).find? p = l₂.find? p := by
  simp [List.find?_append, h]

theorem find?_eq_some_of_unique {α : Type} (l : List α) (p : α → Bool) (a : α)
    (ha : a ∈ l) (hpa : p a = true) (huniq : ∀ b ∈ l, p b = true → b = a) :
    l.find? p = some a := by
  induction l with
  | nil => cases ha
  | cons x rest ih =>
    cases hx : p x with
    | true =>
      rw [List.find?_cons_of_pos _ hx]
      exact congrArg some (huniq x (List.mem_cons_self x rest) hx)
    | false =>
      have hx2 : ¬ (p x = true) := by simp [hx]
      rw [List.find?_cons_of_neg _ hx2]
      rcases List.mem_cons.mp ha with rfl | ha2
      · exact absurd hpa hx2
      · exact ih ha2 (fun b hb hpb => huniq b (List.mem_cons_of_mem x hb) hpb)

/-- The `notes` field after `Order.update_status`: rewritten only when the
optional note is truthy. -/
theorem update_status_notes (o : Order) (ns : OrderStatus) (note : Option String)
    (ts : String) (now : Nat) :
    (o.update_status ns note ts now).notes =
      (if pyTruthyStr note then
        some (pyStrip ((o.notes.getD "") ++ "\n" ++ ts ++
          ": Status changed from " ++ o.status.value ++ " to " ++ ns.value ++
          ". " ++ note.getD ""))
      else o.notes) := by
  unfold Order.update_status
  split_ifs <;> rfl

/-! ### Claims -/

/-- Claim C1, counterexample. The claim states that a product whose sale
price is set but not lower than its base price has effective price equal
to the base price. For the product with base price 100 and sale price
150, `get_display_price` returns the sale price 150, not the base price:
the code tests only truthiness of `sale_price`, never the comparison. -/
theorem C1_counterexample :
    Product.get_display_price ⟨1, 100, some 150, 10, true, 0⟩ = 150 ∧
    Product.price ⟨1, 100, some 150, 10, true, 0⟩ = 100 ∧
    Product.sale_price ⟨1, 100, some 150, 10, true, 0⟩ = some 150 ∧
    ¬ ((150 : ℚ) < 100) ∧
    Product.get_display_price ⟨1, 100, some 150, 10, true, 0⟩ ≠
      Product.price ⟨1, 100, some 150, 10, true, 0⟩ := by
  refine ⟨?_, rfl, rfl, by norm_num, ?_⟩ <;> decide

/-- Claim C1, amended. The effective/display price returned by
`get_display_price` equals the sale price whenever a sale price is
present and non-zero — regardless of how it compares to the base
price — and equals the base price when the sale price is absent or zero;
`get_effective_price` is an exact alias of `get_display_price`. -/
theorem C1_amended_effective_price (p : Product) :
    (∀ s : ℚ, p.sale_price = some s → s ≠ 0 → p.get_display_price = s) ∧
    (p.sale_price = none → p.get_display_price = p.price) ∧
    (p.sale_price = some 0 → p.get_display_price = p.price) ∧
    p.get_effective_price = p.get_display_price := by
  refine ⟨?_, ?_, ?_, rfl⟩
  · intro s hs hs0
    simp [Product.get_display_price, pyTruthyNum, hs, hs0]
  · intro h
    simp [Product.get_display_price, pyTruthyNum, h]
  · intro h
    simp [Product.get_display_price, pyTruthyNum, h]

/-- Claim C1, witness: a product with base price 100 and (non-zero) sale
price 80 displays 80. -/
theorem C1_witness :
    Product.get_display_price ⟨2, 100, some 80, 10, true, 0⟩ = 80 :=
  (C1_amended_effective_price ⟨2, 100, some 80, 10, true, 0⟩).1 80 rfl (by norm_num)

/-- Claim C2: the admin delete-category route evaluates
`if category.products:` on a dynamic-relationship query object, which is
truthy for any contents, so even a category with zero products is
refused — contradicting the claim (and the route's own flash message and
dead deletion branch) that a product-free category is deleted. -/
theorem C2_delete_category_refuses_empty_category :
    delete_category ⟨1, "Books"⟩ [] = (⟨1, "Books"⟩, DeleteCategoryResult.refused) :=
  rfl

/-- Claim C3, counterexample. The claim states every `update_status` call
(with or without a note) appends a timestamped line to `notes`. Calling
`update_status` without a note on an order with empty notes leaves
`notes` equal to `None`: the code appends only under `if notes:`. -/
theorem C3_counterexample :
    (Order.update_status
        ⟨OrderStatus.pending, none, 0, 0, 0, 0, 0, [], none, none, none, 0⟩
        OrderStatus.confirmed none "2024-01-01 00:00:00" 1).notes = none := by
  rfl

/-- Claim C3, amended. A status change rewrites `notes` to the previous
notes followed by the timestamped line
`<timestamp>: Status changed from <old> to <new>. <note>` (then
stripped of outer whitespace) exactly when a non-empty note argument is
supplied; when the note is omitted or empty, `notes` is unchanged. -/
theorem C3_amended_status_note (o : Order) (new_status : OrderStatus)
    (note ts : String) (now : Nat) :
    (note ≠ "" →
      (o.update_status new_status (some note) ts now).notes =
        some (pyStrip ((o.notes.getD "") ++ "\n" ++ ts ++
          ": Status changed from " ++ o.status.value ++ " to " ++
          new_status.value ++ ". " ++ note))) ∧
    (o.update_status new_status none ts now).notes = o.notes ∧
    (o.update_status new_status (some "") ts now).notes = o.notes := by
  refine ⟨fun hnote => ?_, ?_, ?_⟩
  · rw [update_status_notes]
    have hb : pyTruthyStr (some note) = true := by
      simp [pyTruthyStr, hnote]
    rw [if_pos hb]
    rfl
  · rw [update_status_notes]
    simp [pyTruthyStr]
  · rw [update_status_notes]
    simp [pyTruthyStr]

/-- Claim C3, witness: updating status from pending to confirmed with the
note "Payment received" produces the documented audit line. -/
theorem C3_witness :
    (Order.update_status
        ⟨OrderStatus.pending, none, 0, 0, 0, 0, 0, [], none, none, none, 0⟩
        OrderStatus.confirmed (some "Payment received") "2024-01-01 00:00:00" 1).notes =
      some "2024-01-01 00:00:00: Status changed from pending to confirmed. Payment received" := by
  have h := (C3_amended_status_note
      ⟨OrderStatus.pending, none, 0, 0, 0, 0, 0, [], none, none, none, 0⟩
      OrderStatus.confirmed "Payment received" "2024-01-01 00:00:00" 1).1
      (by decide)
  rw [h]
  rfl

/-- Claim C4: `reserve_stock` fails on a non-positive quantity or one
above the available stock and `update_stock` fails on a negative absolute
quantity, in each case leaving the product (hence its `stock_quantity`)
unchanged; the successful cases decrement or set the stock, and starting
from non-negative stock no stock operation (reserve, release, or
absolute update) produces negative stock. -/
theorem C4_stock_guards (p : Product) (q n : ℤ) (now : Nat) :
    ((q ≤ 0 ∨ p.stock_quantity < q) →
      (p.reserve_stock q now).1 = p ∧ (p.reserve_stock q now).2.isSome = true) ∧
    (0 < q → q ≤ p.stock_quantity →
      (p.reserve_stock q now).2 = none ∧
      (p.reserve_stock q now).1.stock_quantity = p.stock_quantity - q) ∧
    (n < 0 →
      (p.update_stock n now).1 = p ∧ (p.update_stock n now).2.isSome = true) ∧
    (0 ≤ n →
      (p.update_stock n now).2 = none ∧
      (p.update_stock n now).1.stock_quantity = n) ∧
    (0 ≤ p.stock_quantity →
      0 ≤ (p.reserve_stock q now).1.stock_quantity ∧
      0 ≤ (p.release_stock q now).1.stock_quantity ∧
      0 ≤ (p.update_stock n now).1.stock_quantity) := by
  unfold Product.reserve_stock Product.release_stock Product.update_stock
  refine ⟨?_, ?_, ?_, ?_, ?_⟩ <;> split_ifs <;> simp_all <;> omega

/-- Claim C4, witness: a product with stock 10 rejects `reserve_stock(20)`
and is left unchanged. -/
theorem C4_witness :
    (Product.reserve_stock ⟨1, 100, none, 10, true, 0⟩ 20 5).1 =
        ⟨1, 100, none, 10, true, 0⟩ ∧
    (Product.reserve_stock ⟨1, 100, none, 10, true, 0⟩ 20 5).2.isSome = true :=
  (C4_stock_guards ⟨1, 100, none, 10, true, 0⟩ 20 0 5).1 (Or.inr (by norm_num))

/-- Claim C5: after `calculate_totals`, the subtotal is the sum of the
line totals (unit price times quantity), the tax is 8% of that subtotal
(`calculate_tax` at its default rate 0.08, the only tax computation in
the system), and the total equals subtotal + tax + shipping − discount. -/
theorem C5_order_totals (o : Order) (now : Nat) :
    (o.calculate_totals now).subtotal_amount =
        (o.items.map (fun it => it.price * (it.quantity : ℚ))).sum ∧
    (o.calculate_totals now).tax_amount =
        (o.calculate_totals now).subtotal_amount * (8 / 100) ∧
    (o.calculate_totals now).total_amount =
        (o.calculate_totals now).subtotal_amount +
        (o.calculate_totals now).tax_amount +
        (o.calculate_totals now).shipping_amount -
        (o.calculate_totals now).discount_amount ∧
    (o.calculate_totals now).shipping_amount = o.shipping_amount ∧
    (o.calculate_totals now).discount_amount = o.discount_amount := by
  exact ⟨rfl, rfl, rfl, rfl, rfl⟩

/-- `clear_cart` leaves no lines, hence no duplicate lines. -/
theorem clear_cart_preserves_unique (c : Cart) (now : Nat) :
    (c.clear_cart now).uniqueProductLines := by
  simp [Cart.clear_cart, Cart.uniqueProductLines]

/-- `remove_item` preserves at-most-one-line-per-product. -/
theorem remove_item_preserves_unique (c : Cart) (pid : Nat) (now : Nat)
    (h : c.uniqueProductLines) : (c.remove_item pid now).uniqueProductLines := by
  cases hex : c.get_item_by_product pid with
  | none =>
    simp only [Cart.remove_item, hex]
    exact h
  | some it =>
    simp only [Cart.remove_item, hex]
    unfold Cart.uniqueProductLines at h ⊢
    exact List.Nodup.sublist
      ((eraseFirstItem_sublist c.items pid).map CartItem.product_id) h

/-- `add_item` preserves at-most-one-line-per-product. -/
theorem add_item_preserves_unique (db : List Product) (c : Cart) (pid : Nat)
    (q : ℤ) (now : Nat) (h : c.uniqueProductLines) :
    (Cart.add_item db c pid q now).1.uniqueProductLines := by
  cases hfa : findActiveProduct db pid with
  | none =>
    simp only [Cart.add_item, hfa]
    exact h
  | some p =>
    cases hex : c.get_item_by_product pid with
    | some it =>
      simp only [Cart.add_item, hfa, hex]
      by_cases hlt : p.stock_quantity < q + it.quantity
      · rw [if_pos hlt]
        exact h
      · rw [if_neg hlt]
        unfold Cart.uniqueProductLines at h ⊢
        show (List.map CartItem.product_id (updateFirstItem c.items pid
          (fun x => { x with quantity := x.quantity + q, updated_at := now }))).Nodup
        rw [updateFirstItem_map_product_id c.items pid
          (fun x => { x with quantity := x.quantity + q, updated_at := now })
          (fun x => rfl)]
        exact h
    | none =>
      simp only [Cart.add_item, hfa, hex]
      by_cases hlt : p.stock_quantity < q + 0
      · rw [if_pos hlt]
        exact h
      · rw [if_neg hlt]
        have hex2 : c.items.find? (fun x => x.product_id == pid) = none := hex
        have hnot : pid ∉ List.map CartItem.product_id c.items := by
          intro hmem
          obtain ⟨x, hx, hxe⟩ := List.mem_map.mp hmem
          have h2 := List.find?_eq_none.mp hex2 x hx
          simp [hxe] at h2
        unfold Cart.uniqueProductLines at h ⊢
        show (List.map CartItem.product_id
          (c.items ++ [⟨c.id, pid, q, p.get_effective_price, now⟩])).Nodup
        rw [List.map_append]
        simp [List.nodup_append, h, hnot]

/-- `update_item_quantity` preserves at-most-one-line-per-product. -/
theorem update_item_quantity_preserves_unique (db : List Product) (c : Cart)
    (pid : Nat) (q : ℤ) (now : Nat) (h : c.uniqueProductLines) :
    (Cart.update_item_quantity db c pid q now).1.uniqueProductLines := by
  cases hex : c.get_item_by_product pid with
  | none =>
    simp only [Cart.update_item_quantity, hex]
    exact h
  | some it =>
    simp only [Cart.update_item_quantity, hex]
    by_cases hq : q ≤ 0
    · rw [if_pos hq]
      exact remove_item_preserves_unique c pid now h
    · rw [if_neg hq]
      cases hfp : findProduct db pid with
      | none => exact h
      | some p =>
        dsimp only
        by_cases hlt : p.stock_quantity < q
        · rw [if_pos hlt]
          exact h
        · rw [if_neg hlt]
          unfold Cart.uniqueProductLines at h ⊢
          show (List.map CartItem.product_id (updateFirstItem c.items pid
            (fun x => { x with quantity := q, updated_at := now }))).Nodup
          rw [updateFirstItem_map_product_id c.items pid
            (fun x => { x with quantity := q, updated_at := now })
            (fun x => rfl)]
          exact h

/-- Claim C6: every cart operation preserves the at-most-one-line-per-
(cart, product) invariant, and when a line for the product already
exists, a successful `add_item` increments that line's quantity by the
added amount without creating a new line (same number of lines, and the
product's line is the returned, incremented item). -/
theorem C6_cart_line_uniqueness (db : List Product) (c : Cart) (pid : Nat)
    (q : ℤ) (now : Nat) :
    (c.uniqueProductLines →
      (Cart.add_item db c pid q now).1.uniqueProductLines ∧
      (Cart.update_item_quantity db c pid q now).1.uniqueProductLines ∧
      (c.remove_item pid now).uniqueProductLines ∧
      (c.clear_cart now).uniqueProductLines) ∧
    (∀ it c2 it2, c.get_item_by_product pid = some it →
      Cart.add_item db c pid q now = (c2, Except.ok it2) →
      it2.quantity = it.quantity + q ∧
      c2.items.length = c.items.length ∧
      c2.get_item_by_product pid = some it2) := by
  constructor
  · intro h
    exact ⟨add_item_preserves_unique db c pid q now h,
      update_item_quantity_preserves_unique db c pid q now h,
      remove_item_preserves_unique c pid now h,
      clear_cart_preserves_unique c now⟩
  · intro it c2 it2 hex hadd
    cases hfa : findActiveProduct db pid with
    | none =>
      rw [Cart.add_item, hfa] at hadd
      simp at hadd
    | some p =>
      simp only [Cart.add_item, hfa, hex] at hadd
      by_cases hlt : p.stock_quantity < q + it.quantity
      · rw [if_pos hlt] at hadd
        simp at hadd
      · rw [if_neg hlt] at hadd
        simp only [Prod.mk.injEq, Except.ok.injEq] at hadd
        obtain ⟨hc2, hit2⟩ := hadd
        subst hc2
        subst hit2
        refine ⟨rfl, updateFirstItem_length c.items pid _, ?_⟩
        have hex2 : c.items.find? (fun x => x.product_id == pid) = some it := hex
        exact find?_updateFirstItem c.items pid
          (fun x => { x with quantity := x.quantity + q, updated_at := now })
          (fun x => rfl) it hex2

/-- Claim C6, witness: a cart whose only line holds 2 units of product 1
(added earlier) receives 3 more units: the cart still has one line, now
with quantity 5 = 2 + 3, and it is the line for product 1. -/
theorem C6_witness :
    CartItem.quantity ⟨5, 1, 5, 10, 7⟩ = CartItem.quantity ⟨5, 1, 2, 10, 6⟩ + 3 ∧
    (Cart.items ⟨5, [⟨5, 1, 5, 10, 7⟩], 7⟩).length =
      (Cart.items ⟨5, [⟨5, 1, 2, 10, 6⟩], 6⟩).length ∧
    Cart.get_item_by_product ⟨5, [⟨5, 1, 5, 10, 7⟩], 7⟩ 1 = some ⟨5, 1, 5, 10, 7⟩ :=
  (C6_cart_line_uniqueness [⟨1, 10, none, 100, true, 0⟩]
      ⟨5, [⟨5, 1, 2, 10, 6⟩], 6⟩ 1 3 7).2
    ⟨5, 1, 2, 10, 6⟩ ⟨5, [⟨5, 1, 5, 10, 7⟩], 7⟩ ⟨5, 1, 5, 10, 7⟩ rfl rfl

/-- Claim C7: when the total requested quantity for a product (the
addition plus any existing line, or the new absolute quantity on update)
exceeds the product's current stock, `add_item` and
`update_item_quantity` raise "Insufficient stock" and return the cart
with all lines and quantities unchanged. -/
theorem C7_insufficient_stock (db : List Product) (c : Cart) (pid : Nat)
    (q : ℤ) (now : Nat) (p : Product) :
    (findActiveProduct db pid = some p →
      (∀ it, c.get_item_by_product pid = some it →
        p.stock_quantity < q + it.quantity →
        Cart.add_item db c pid q now =
          (c, Except.error ("Insufficient stock. Available: " ++
            toString p.stock_quantity))) ∧
      (c.get_item_by_product pid = none →
        p.stock_quantity < q →
        Cart.add_item db c pid q now =
          (c, Except.error ("Insufficient stock. Available: " ++
            toString p.stock_quantity)))) ∧
    (findProduct db pid = some p → 0 ≤ p.stock_quantity →
      ∀ it, c.get_item_by_product pid = some it →
        p.stock_quantity < q →
        Cart.update_item_quantity db c pid q now =
          (c, some ("Insufficient stock. Available: " ++
            toString p.stock_quantity))) := by
  refine ⟨fun hfa => ⟨fun it hex hlt => ?_, fun hex hlt => ?_⟩,
    fun hfp hnn it hex hlt => ?_⟩
  · simp only [Cart.add_item, hfa, hex]
    rw [if_pos hlt]
  · simp only [Cart.add_item, hfa, hex]
    rw [if_pos (by omega : p.stock_quantity < q + 0)]
  · have hq : ¬ q ≤ 0 := by omega
    simp only [Cart.update_item_quantity, hex, hfp]
    rw [if_neg hq, if_pos hlt]

/-- Claim C7, witness: adding 20 units of a product with stock 10 to an
empty cart fails with "Insufficient stock" and leaves the cart unchanged. -/
theorem C7_witness :
    Cart.add_item [⟨1, 100, none, 10, true, 0⟩] ⟨5, [], 0⟩ 1 20 6 =
      (⟨5, [], 0⟩, Except.error ("Insufficient stock. Available: " ++
        toString (10 : ℤ))) :=
  ((C7_insufficient_stock [⟨1, 100, none, 10, true, 0⟩] ⟨5, [], 0⟩ 1 20 6
      ⟨1, 100, none, 10, true, 0⟩).1 rfl).2 rfl (by norm_num)

/-- Claim C9: for a cart holding a line for the product,
`update_item_quantity` with any quantity ≤ 0 (zero or negative) removes
that line without error, and the result does not depend on the product
table at all — no stock is consulted. -/
theorem C9_nonpositive_quantity_removes (db db2 : List Product) (c : Cart)
    (pid : Nat) (q : ℤ) (now : Nat) (it : CartItem)
    (hex : c.get_item_by_product pid = some it) (hq : q ≤ 0) :
    Cart.update_item_quantity db c pid q now =
      ({ c with items := eraseFirstItem c.items pid, updated_at := now }, none) ∧
    Cart.update_item_quantity db c pid q now =
      Cart.update_item_quantity db2 c pid q now := by
  have h1 : ∀ d : List Product, Cart.update_item_quantity d c pid q now =
      ({ c with items := eraseFirstItem c.items pid, updated_at := now }, none) := by
    intro d
    simp only [Cart.update_item_quantity, hex]
    rw [if_pos hq]
    simp only [Cart.remove_item, hex]
  exact ⟨h1 db, (h1 db).trans (h1 db2).symm⟩

/-- Claim C9, witness: with quantity −1 the line for product 1 is
removed, without error, identically for an empty product table and for
one where the product has zero stock. -/
theorem C9_witness :
    Cart.update_item_quantity [] ⟨5, [⟨5, 1, 2, 10, 6⟩], 6⟩ 1 (-1) 7 =
      (⟨5, [], 7⟩, none) ∧
    Cart.update_item_quantity [] ⟨5, [⟨5, 1, 2, 10, 6⟩], 6⟩ 1 (-1) 7 =
      Cart.update_item_quantity [⟨1, 100, none, 0, true, 0⟩]
        ⟨5, [⟨5, 1, 2, 10, 6⟩], 6⟩ 1 (-1) 7 :=
  C9_nonpositive_quantity_removes [] [⟨1, 100, none, 0, true, 0⟩]
    ⟨5, [⟨5, 1, 2, 10, 6⟩], 6⟩ 1 (-1) 7 ⟨5, 1, 2, 10, 6⟩ rfl (by norm_num)

/-- Claim C10: a successful `add_item` that increments an existing line
leaves the line's stored unit-price snapshot unchanged (whatever the
product table now says), while a successful `add_item` that creates a
new line prices it at the product's current effective price. -/
theorem C10_price_snapshot (db : List Product) (c : Cart) (pid : Nat)
    (q : ℤ) (now : Nat) :
    (∀ it c2 it2, c.get_item_by_product pid = some it →
      Cart.add_item db c pid q now = (c2, Except.ok it2) →
      it2.price = it.price ∧
      (c2.get_item_by_product pid).map CartItem.price = some it.price) ∧
    (∀ p c2 it2, c.get_item_by_product pid = none →
      findActiveProduct db pid = some p →
      Cart.add_item db c pid q now = (c2, Except.ok it2) →
      it2.price = p.get_effective_price ∧
      c2.get_item_by_product pid = some it2) := by
  constructor
  · intro it c2 it2 hex hadd
    cases hfa : findActiveProduct db pid with
    | none =>
      rw [Cart.add_item, hfa] at hadd
      simp at hadd
    | some p =>
      simp only [Cart.add_item, hfa, hex] at hadd
      by_cases hlt : p.stock_quantity < q + it.quantity
      · rw [if_pos hlt] at hadd
        simp at hadd
      · rw [if_neg hlt] at hadd
        simp only [Prod.mk.injEq, Except.ok.injEq] at hadd
        obtain ⟨hc2, hit2⟩ := hadd
        subst hc2
        subst hit2
        have hex2 : c.items.find? (fun x => x.product_id == pid) = some it := hex
        refine ⟨rfl, ?_⟩
        have hfind := find?_updateFirstItem c.items pid
          (fun x => { x with quantity := x.quantity + q, updated_at := now })
          (fun x => rfl) it hex2
        show ((updateFirstItem c.items pid
          (fun x => { x with quantity := x.quantity + q, updated_at := now })).find?
          (fun x => x.product_id == pid)).map CartItem.price = some it.price
        rw [hfind]
        rfl
  · intro p c2 it2 hex hfa hadd
    simp only [Cart.add_item, hfa, hex] at hadd
    by_cases hlt : p.stock_quantity < q + 0
    · rw [if_pos hlt] at hadd
      simp at hadd
    · rw [if_neg hlt] at hadd
      simp only [Prod.mk.injEq, Except.ok.injEq] at hadd
      obtain ⟨hc2, hit2⟩ := hadd
      subst hc2
      subst hit2
      refine ⟨rfl, ?_⟩
      have hex2 : c.items.find? (fun x => x.product_id == pid) = none := hex
      show (c.items ++ [(⟨c.id, pid, q, p.get_effective_price, now⟩ : CartItem)]).find?
        (fun x => x.product_id == pid) = _
      rw [find?_append_of_none c.items _ _ hex2]
      simp [List.find?]

/-- Claim C10, witness: a fresh line for a product with base price 10 and
sale price 8 is priced at the effective price 8, and is the line the
resulting cart holds for that product. -/
theorem C10_witness :
    CartItem.price ⟨5, 1, 2, 8, 6⟩ =
      Product.get_effective_price ⟨1, 10, some 8, 100, true, 0⟩ ∧
    Cart.get_item_by_product ⟨5, [⟨5, 1, 2, 8, 6⟩], 6⟩ 1 = some ⟨5, 1, 2, 8, 6⟩ :=
  (C10_price_snapshot [⟨1, 10, some 8, 100, true, 0⟩] ⟨5, [], 0⟩ 1 2 6).2
    ⟨1, 10, some 8, 100, true, 0⟩ ⟨5, [⟨5, 1, 2, 8, 6⟩], 6⟩ ⟨5, 1, 2, 8, 6⟩
    rfl rfl rfl

/-- Claim C8: for a stored user and an input matching that user's
username or email (and no other stored user), `authenticate` returns
exactly that user with its last-login timestamp updated precisely when
the password verifies against the stored hash and the account is active;
when the account is inactive or the password is wrong it returns no
user. -/
theorem C8_authenticate (db : List User) (verify : String → String → Bool)
    (input password : String) (now : Nat) (u : User)
    (hmem : u ∈ db)
    (hmatch : u.username = input ∨ u.email = input)
    (huniq : ∀ v ∈ db, (v.username = input ∨ v.email = input) → v = u) :
    (User.authenticate db verify input password now =
        some (u.update_last_login now) ↔
      (User.check_password verify u password = true ∧ u.is_active = true)) ∧
    ((u.is_active = false ∨ User.check_password verify u password = false) →
      User.authenticate db verify input password now = none) := by
  have hp : (u.username == input || u.email == input) = true := by
    rcases hmatch with h | h <;> simp [h]
  have hfind : db.find? (fun v => v.username == input || v.email == input) = some u :=
    find?_eq_some_of_unique db _ u hmem hp
      (fun b hb hpb => huniq b hb (by
        rcases Bool.or_eq_true_iff.mp hpb with h | h
        · exact Or.inl (by simpa using h)
        · exact Or.inr (by simpa using h)))
  have hmain : User.authenticate db verify input password now =
      (if (User.check_password verify u password && u.is_active) = true then
        some (u.update_last_login now) else none) := by
    simp only [User.authenticate, hfind]
  constructor
  · rw [hmain]
    constructor
    · intro hauth
      by_cases hc : (User.check_password verify u password && u.is_active) = true
      · exact Bool.and_eq_true_iff.mp hc
      · rw [if_neg hc] at hauth
        cases hauth
    · intro h
      rw [if_pos (Bool.and_eq_true_iff.mpr h)]
  · intro h
    rw [hmain]
    have hc : ¬ ((User.check_password verify u password && u.is_active) = true) := by
      rcases h with h | h <;> simp [h]
    rw [if_neg hc]

/-- Claim C8, witness: for a single active stored user matched by
username, with a verifier accepting the stored hash, authentication
returns that user with `last_login` stamped. -/
theorem C8_witness :
    User.authenticate [⟨1, "alice", "alice@example.com", "hash1", true, none⟩]
        (fun stored pw => stored == pw) "alice" "hash1" 9 =
      some ⟨1, "alice", "alice@example.com", "hash1", true, some 9⟩ :=
  (C8_authenticate [⟨1, "alice", "alice@example.com", "hash1", true, none⟩]
      (fun stored pw => stored == pw) "alice" "hash1" 9
      ⟨1, "alice", "alice@example.com", "hash1", true, none⟩
      (by simp) (Or.inl rfl)
      (by intro v hv _; simpa using hv)).1.mpr ⟨rfl, rfl⟩

end ECommerce
